import Mathlib

/-!
Shallow embedding of the VisionAI backend API routes:
  * `src/website/app/api/configs/camera/route.ts` (POST /api/configs/camera)
  * the auth session route (POST and DELETE /api/auth/session)
  * `src/website/database/db.ts` (the `db.query` shim over the pg pool)

External library calls (zod email/url validation, bcrypt comparison, JWT
sign/verify) are modelled as oracle functions carried in an environment
record; the handlers' own control flow, SQL texts, parameters and response
construction are translated directly from the source.
-/

/-- JSON values as delivered by `req.json()`.  Numbers are modelled as
integers (the only numeric field validated by the routes, `locationId`,
is required by the schema to be an integer). -/
inductive Json where
  | null : Json
  | bool (b : Bool) : Json
  | num (n : Int) : Json
  | str (s : String) : Json
  | arr (xs : List Json) : Json
  | obj (fields : List (String × Json)) : Json

/-- Field lookup in a JSON object body; `none` both for a missing key and
for a non-object value (mirrors `undefined` in JS property access). -/
def lookupField : List (String × Json) → String → Option Json
  | [], _ => none
  | (k, v) :: rest, key => if k = key then some v else lookupField rest key

def Json.getField : Json → String → Option Json
  | .obj fields, key => lookupField fields key
  | _, _ => none

/-- SQL parameter values as passed to `db.query` (strings, numbers, NULL). -/
inductive ParamVal where
  | null : ParamVal
  | str (s : String) : ParamVal
  | int (n : Int) : ParamVal
deriving DecidableEq

/-- One `db.query(text, params)` call recorded in execution order. -/
structure QueryCall where
  text : String
  params : List ParamVal
deriving DecidableEq

/-- A row of the `users` table, as selected by the login handler
(`SELECT id, name, email, password FROM users WHERE email = $1`). -/
structure UserRow where
  id : String
  name : String
  email : String
  password : String
deriving DecidableEq

/-- A row of the `locations` table (the columns the ownership join uses). -/
structure LocationRow where
  id : Int
  factory_id : Int
deriving DecidableEq

/-- A row of the `factories` table (the columns the ownership join uses). -/
structure FactoryRow where
  id : Int
  user_id : String
deriving DecidableEq

/-- The relational store visible to the handlers. -/
structure Db where
  users : List UserRow
  locations : List LocationRow
  factories : List FactoryRow

/-- Cross product of two lists, for SQL join semantics. -/
def listProd (xs : List α) (ys : List β) : List (α × β) :=
  (xs.map (fun x => ys.map (fun y => (x, y)))).flatten

def usersSql : String :=
  "SELECT id, name, email, password FROM users WHERE email = $1"

def locationCheckSql : String :=
  "SELECT l.id FROM locations l JOIN factories f ON l.factory_id = f.id WHERE l.id = $1 AND f.user_id = $2"

def insertCameraSql : String :=
  "INSERT INTO cameras (name, stream_url, location_id) VALUES ($1, $2, $3) RETURNING *"

/-- Result rows of the users query: rows of `users` whose email matches. -/
def usersQueryRows (db : Db) (email : String) : List UserRow :=
  db.users.filter (fun u => u.email = email)

/-- Result rows of the ownership check: ids of locations with the given id
joined to a factory (on `l.factory_id = f.id`) owned by the given user. -/
def locationCheckRows (db : Db) (locationId : Int) (userId : String) : List Int :=
  ((listProd db.locations db.factories).filter
    (fun lf => lf.1.factory_id = lf.2.id ∧ lf.1.id = locationId ∧ lf.2.user_id = userId)).map
    (fun lf => lf.1.id)

/-- Cookie attributes as passed to `serialize` from the `cookie` package. -/
structure CookieOpts where
  httpOnly : Bool
  secure : Bool
  sameSite : String
  maxAge : Int
  path : String
deriving DecidableEq

/-- One serialized Set-Cookie entry. -/
structure SetCookie where
  name : String
  value : String
  opts : CookieOpts
deriving DecidableEq

/-- One `sign(payload, secret, { expiresIn })` call made by the login handler. -/
structure SignCall where
  userId : String
  secret : String
  expiresIn : String
deriving DecidableEq

/-- HTTP response: status plus the JSON body's `message` field when the body
is a message object (`none` for the 201 created-row body of the camera route,
whose content comes from the database's RETURNING clause). -/
structure Response where
  status : Nat
  message : Option String
deriving DecidableEq

/-- Environment of the login POST handler: the zod email validator, bcrypt
comparison, JWT signing, the two secrets, NODE_ENV and the database. -/
structure LoginEnv where
  isValidEmail : String → Bool
  bcryptCompare : String → String → Bool
  signToken : String → String → String → String
  jwtAccessSecret : String
  jwtRefreshSecret : String
  nodeEnvProduction : Bool
  db : Db

/-- Outcome of a session-route handler: the response, the Set-Cookie
serializations, the JWT sign calls and the SQL queries it executed. -/
structure SessionResult where
  response : Response
  cookies : List SetCookie
  signCalls : List SignCall
  queries : List QueryCall

/-- zod parse for the login schema
`z.object({ email: z.email(), password: z.string().min(6) })`.
Email validity is the oracle `isValidEmail`. -/
def loginParse (isValidEmail : String → Bool) (body : Json) :
    Except String (String × String) :=
  match body with
  | .obj _ =>
    match body.getField "email" with
    | some (.str e) =>
      if isValidEmail e then
        match body.getField "password" with
        | some (.str p) =>
          if 6 ≤ p.length then .ok (e, p)
          else .error "String must contain at least 6 character(s)"
        | _ => .error "Required"
      else .error "Invalid email"
    | _ => .error "Required"
  | _ => .error "Expected object, received other"

/-- POST /api/auth/session: validate, look up the user by email, compare the
password with bcrypt, and on success sign the two JWTs and serialize them
into httpOnly cookies (translated from the source handler). -/
def loginPOST (env : LoginEnv) (body : Json) : SessionResult :=
  match loginParse env.isValidEmail body with
  | .error msg =>
    { response := { status := 400, message := some msg },
      cookies := [], signCalls := [], queries := [] }
  | .ok (email, password) =>
    let q : QueryCall := { text := usersSql, params := [.str email] }
    match usersQueryRows env.db email with
    | [] =>
      { response := { status := 401, message := some "Invalid credentials" },
        cookies := [], signCalls := [], queries := [q] }
    | u :: _ =>
      if env.bcryptCompare password u.password then
        let accessToken := env.signToken u.id env.jwtAccessSecret "15m"
        let refreshToken := env.signToken u.id env.jwtRefreshSecret "7d"
        { response := { status := 200, message := some "Login successful" },
          cookies :=
            [ { name := "accessToken", value := accessToken,
                opts := { httpOnly := true, secure := env.nodeEnvProduction,
                          sameSite := "strict", maxAge := 15 * 60, path := "/" } },
              { name := "refreshToken", value := refreshToken,
                opts := { httpOnly := true, secure := env.nodeEnvProduction,
                          sameSite := "strict", maxAge := 60 * 60 * 24 * 7, path := "/" } } ],
          signCalls :=
            [ { userId := u.id, secret := env.jwtAccessSecret, expiresIn := "15m" },
              { userId := u.id, secret := env.jwtRefreshSecret, expiresIn := "7d" } ],
          queries := [q] }
      else
        { response := { status := 401, message := some "Invalid credentials" },
          cookies := [], signCalls := [], queries := [q] }

/-- DELETE /api/auth/session: clear both cookies and answer 200, touching
no database (translated from the source handler). -/
def sessionDELETE (nodeEnvProduction : Bool) : SessionResult :=
  { response := { status := 200, message := some "Logout successful" },
    cookies :=
      [ { name := "accessToken", value := "",
          opts := { httpOnly := true, secure := nodeEnvProduction,
                    sameSite := "strict", maxAge := -1, path := "/" } },
        { name := "refreshToken", value := "",
          opts := { httpOnly := true, secure := nodeEnvProduction,
                    sameSite := "strict", maxAge := -1, path := "/" } } ],
    signCalls := [], queries := [] }

/-- Environment of the camera POST handler: JWT verification (returning the
decoded token's `userId`, or `none` when `verify` throws), the zod URL
validator, and the database. -/
structure CameraEnv where
  jwtVerify : String → Option String
  isValidUrl : String → Bool
  db : Db

/-- A camera request: the `accessToken` cookie (if present) and the parsed
JSON body. -/
structure CameraRequest where
  accessToken : Option String
  body : Json

/-- The camera body after zod validation: `streamUrl` is `none` when the
key was absent (`undefined`), `some ""` for the empty-string literal. -/
structure CameraData where
  name : String
  streamUrl : Option String
  locationId : Int
deriving DecidableEq

/-- zod parse for
`z.object({ name: z.string().min(1), streamUrl: z.string().url().optional().or(z.literal("")), locationId: z.number().int().positive() })`.
URL validity is the oracle `isValidUrl`; the union accepts a valid URL
string, an absent key, or the literal `""` (the JSON number type of the
embedding is `Int`, so `.int()` is satisfied by construction). -/
def cameraParse (isValidUrl : String → Bool) (body : Json) :
    Except String CameraData :=
  match body with
  | .obj _ =>
    match body.getField "name" with
    | some (.str n) =>
      if 1 ≤ n.length then
        match body.getField "streamUrl" with
        | none =>
          match body.getField "locationId" with
          | some (.num i) =>
            if 0 < i then .ok { name := n, streamUrl := none, locationId := i }
            else .error "Location ID must be a positive integer"
          | _ => .error "Required"
        | some (.str s) =>
          if isValidUrl s ∨ s = "" then
            match body.getField "locationId" with
            | some (.num i) =>
              if 0 < i then .ok { name := n, streamUrl := some s, locationId := i }
              else .error "Location ID must be a positive integer"
            | _ => .error "Required"
          else .error "Invalid URL format"
        | some _ => .error "Invalid input"
      else .error "Camera name is required"
    | _ => .error "Required"
  | _ => .error "Expected object, received other"

/-- `streamUrl || null`: JavaScript's `||` yields `null` exactly when
`streamUrl` is falsy, i.e. `undefined` (absent) or the empty string. -/
def streamUrlParam : Option String → ParamVal
  | none => .null
  | some s => if s = "" then .null else .str s

/-- Outcome of the camera POST handler: the response and the SQL queries it
executed, in order. -/
structure CameraResult where
  response : Response
  queries : List QueryCall

/-- POST /api/configs/camera: require a truthy `accessToken` cookie, verify
the JWT (a thrown verification error lands in the generic catch, which maps
every non-ZodError to 500), validate the body, check that the location
belongs to a factory owned by the user, and only then insert the camera
(translated from the source handler). -/
def cameraPOST (env : CameraEnv) (req : CameraRequest) : CameraResult :=
  match req.accessToken with
  | none =>
    { response := { status := 401, message := some "Unauthorized" }, queries := [] }
  | some token =>
    if token = "" then
      { response := { status := 401, message := some "Unauthorized" }, queries := [] }
    else
      match env.jwtVerify token with
      | none =>
        { response := { status := 500, message := some "Error adding camera" },
          queries := [] }
      | some userId =>
        match cameraParse env.isValidUrl req.body with
        | .error msg =>
          { response := { status := 400, message := some msg }, queries := [] }
        | .ok d =>
          let q1 : QueryCall :=
            { text := locationCheckSql, params := [.int d.locationId, .str userId] }
          match locationCheckRows env.db d.locationId userId with
          | [] =>
            { response :=
                { status := 404,
                  message := some "Location not found or does not belong to user" },
              queries := [q1] }
          | _ :: _ =>
            let q2 : QueryCall :=
              { text := insertCameraSql,
                params := [.str d.name, streamUrlParam d.streamUrl, .int d.locationId] }
            { response := { status := 201, message := none }, queries := [q1, q2] }

/-- Whether a recorded query is the camera INSERT. -/
def isInsert (q : QueryCall) : Bool :=
  q.text = insertCameraSql

/-- The `db.query` shim from `src/website/database/db.ts`, over an abstract
connection pool: `query: (text, params) => pool.query(text, params)`. -/
def dbQuery (poolQuery : String → List ParamVal → ρ)
    (text : String) (params : List ParamVal) : ρ :=
  poolQuery text params

/-- Modelled from the spec: "a data-access shim that forwards parameterized
text queries to a connection pool" — the spec-side description of `db.query`,
which hands the query text and parameters to the pool. -/
def specDataAccessShim (poolQuery : String → List ParamVal → ρ)
    (text : String) (params : List ParamVal) : ρ :=
  poolQuery text params

/-- Bool-level check of the cookie attributes the session endpoints always
set: `httpOnly: true`, `sameSite: "strict"`, `path: "/"`. -/
def hasSessionCookieAttrs (c : SetCookie) : Bool :=
  c.opts.httpOnly && (c.opts.sameSite == "strict") && (c.opts.path == "/")

/-- C1: once a POST /api/configs/camera request has passed authentication and
schema validation, the handler inserts into `cameras` only when the ownership
query (location joined to a factory owned by the authenticated user) returned
at least one row; when that query returns zero rows it answers 404 with
"Location not found or does not belong to user" and runs no INSERT. -/
theorem camera_ownership_gate (env : CameraEnv) (req : CameraRequest)
    (token userId : String) (d : CameraData)
    (htok : req.accessToken = some token) (hne : token ≠ "")
    (hver : env.jwtVerify token = some userId)
    (hparse : cameraParse env.isValidUrl req.body = .ok d) :
    (locationCheckRows env.db d.locationId userId = [] →
      (cameraPOST env req).response.status = 404 ∧
      (cameraPOST env req).response.message =
        some "Location not found or does not belong to user" ∧
      ∀ q ∈ (cameraPOST env req).queries, isInsert q = false) ∧
    ((∃ q ∈ (cameraPOST env req).queries, isInsert q = true) →
      locationCheckRows env.db d.locationId userId ≠ []) := by
  constructor
  · intro hrows
    simp only [cameraPOST, htok, hver, hparse, if_neg hne, hrows]
    refine ⟨trivial, trivial, ?_⟩
    intro q hq
    simp only [List.mem_singleton] at hq
    subst hq
    simp [isInsert, locationCheckSql, insertCameraSql]
  · rintro ⟨q, hq, hins⟩ hrows
    simp only [cameraPOST, htok, hver, hparse, if_neg hne, hrows] at hq
    simp only [List.mem_singleton] at hq
    subst hq
    simp [isInsert, locationCheckSql, insertCameraSql] at hins

/-- Concrete witness data for the handler theorems. -/
def dbW : Db :=
  { users := [{ id := "u1", name := "Alice", email := "a@b.co", password := "hash1" }],
    locations := [{ id := 1, factory_id := 1 }],
    factories := [{ id := 1, user_id := "u1" }] }

def cameraEnvW : CameraEnv :=
  { jwtVerify := fun t => if t = "tok" then some "u1" else none,
    isValidUrl := fun _ => true,
    db := dbW }

def cameraReqW : CameraRequest :=
  { accessToken := some "tok",
    body := .obj [("name", .str "cam"), ("locationId", .num 2)] }

/-- Witness for C1: on a database owning no location 2, the handler answers
404 and executes no INSERT. -/
theorem camera_ownership_gate_witness :
    cameraParse cameraEnvW.isValidUrl cameraReqW.body =
      .ok { name := "cam", streamUrl := none, locationId := 2 } ∧
    locationCheckRows cameraEnvW.db 2 "u1" = [] ∧
    (cameraPOST cameraEnvW cameraReqW).response.status = 404 :=
  ⟨rfl, rfl,
    ((camera_ownership_gate cameraEnvW cameraReqW "tok" "u1"
      { name := "cam", streamUrl := none, locationId := 2 }
      rfl (by decide) rfl rfl).1 rfl).1⟩

/-- C2: for a schema-valid login request, the handler answers 401 "Invalid
credentials" exactly when the users query is empty or bcrypt comparison
fails; otherwise it answers "Login successful" with Set-Cookie entries
carrying the signed access and refresh tokens. -/
theorem login_invalid_credentials_iff (env : LoginEnv) (body : Json)
    (email password : String)
    (hparse : loginParse env.isValidEmail body = .ok (email, password)) :
    (((loginPOST env body).response.status = 401 ∧
      (loginPOST env body).response.message = some "Invalid credentials") ↔
      (usersQueryRows env.db email = [] ∨
        ∃ u rest, usersQueryRows env.db email = u :: rest ∧
          env.bcryptCompare password u.password = false)) ∧
    (∀ u rest, usersQueryRows env.db email = u :: rest →
      env.bcryptCompare password u.password = true →
      (loginPOST env body).response.message = some "Login successful" ∧
      (loginPOST env body).cookies.map (fun c => (c.name, c.value)) =
        [("accessToken", env.signToken u.id env.jwtAccessSecret "15m"),
         ("refreshToken", env.signToken u.id env.jwtRefreshSecret "7d")]) := by
  cases hr : usersQueryRows env.db email with
  | nil =>
    have hres : loginPOST env body =
        { response := { status := 401, message := some "Invalid credentials" },
          cookies := [], signCalls := [],
          queries := [{ text := usersSql, params := [.str email] }] } := by
      simp only [loginPOST, hparse, hr]
    rw [hres]
    constructor
    · exact ⟨fun _ => Or.inl rfl, fun _ => ⟨rfl, rfl⟩⟩
    · intro u rest hru _
      exact List.noConfusion hru
  | cons u rest =>
    cases hc : env.bcryptCompare password u.password with
    | false =>
      have hres : loginPOST env body =
          { response := { status := 401, message := some "Invalid credentials" },
            cookies := [], signCalls := [],
            queries := [{ text := usersSql, params := [.str email] }] } := by
        simp only [loginPOST, hparse, hr, hc, Bool.false_eq_true, if_false]
      rw [hres]
      constructor
      · exact ⟨fun _ => Or.inr ⟨u, rest, rfl, hc⟩, fun _ => ⟨rfl, rfl⟩⟩
      · intro u' rest' hru hcu
        injection hru with h1 h2
        subst h1
        rw [hc] at hcu
        exact Bool.noConfusion hcu
    | true =>
      have hres : loginPOST env body =
          { response := { status := 200, message := some "Login successful" },
            cookies :=
              [ { name := "accessToken",
                  value := env.signToken u.id env.jwtAccessSecret "15m",
                  opts := { httpOnly := true, secure := env.nodeEnvProduction,
                            sameSite := "strict", maxAge := 15 * 60, path := "/" } },
                { name := "refreshToken",
                  value := env.signToken u.id env.jwtRefreshSecret "7d",
                  opts := { httpOnly := true, secure := env.nodeEnvProduction,
                            sameSite := "strict", maxAge := 60 * 60 * 24 * 7,
                            path := "/" } } ],
            signCalls :=
              [ { userId := u.id, secret := env.jwtAccessSecret, expiresIn := "15m" },
                { userId := u.id, secret := env.jwtRefreshSecret, expiresIn := "7d" } ],
            queries := [{ text := usersSql, params := [.str email] }] } := by
        simp only [loginPOST, hparse, hr, hc, if_true]
      rw [hres]
      constructor
      · constructor
        · rintro ⟨h, -⟩
          simp at h
        · rintro (h | ⟨u', rest', he, hcu⟩)
          · exact List.noConfusion h
          · injection he with h1 h2
            subst h1
            rw [hc] at hcu
            exact Bool.noConfusion hcu
      · intro u' rest' hru _
        injection hru with h1 h2
        subst h1
        exact ⟨rfl, rfl⟩

def loginEnvW : LoginEnv :=
  { isValidEmail := fun _ => true,
    bcryptCompare := fun p h => (p == "secret1") && (h == "hash1"),
    signToken := fun uid sec life => uid ++ "." ++ sec ++ "." ++ life,
    jwtAccessSecret := "as",
    jwtRefreshSecret := "rs",
    nodeEnvProduction := false,
    db := dbW }

def loginBodyOk : Json :=
  .obj [("email", .str "a@b.co"), ("password", .str "secret1")]

def loginBodyNoUser : Json :=
  .obj [("email", .str "x@b.co"), ("password", .str "secret1")]

def loginBodyBadPw : Json :=
  .obj [("email", .str "a@b.co"), ("password", .str "wrongpw")]

def userW : UserRow :=
  { id := "u1", name := "Alice", email := "a@b.co", password := "hash1" }

/-- Witness for C2: on the concrete store, correct credentials log in with
both tokens set. -/
theorem login_invalid_credentials_iff_witness :
    loginParse loginEnvW.isValidEmail loginBodyOk = .ok ("a@b.co", "secret1") ∧
    usersQueryRows loginEnvW.db "a@b.co" = [userW] ∧
    (loginPOST loginEnvW loginBodyOk).response.message = some "Login successful" :=
  ⟨rfl, rfl,
    ((login_invalid_credentials_iff loginEnvW loginBodyOk "a@b.co" "secret1" rfl).2
      userW [] rfl rfl).1⟩

/-- C3: a camera request with no `accessToken` cookie gets 401 "Unauthorized"
with no database query; one with a (truthy) cookie that fails JWT
verification gets 500 "Error adding camera", since the catch block maps every
non-ZodError to 500. -/
theorem camera_auth_errors (env : CameraEnv) (req : CameraRequest) :
    (req.accessToken = none →
      (cameraPOST env req).response.status = 401 ∧
      (cameraPOST env req).response.message = some "Unauthorized" ∧
      (cameraPOST env req).queries = []) ∧
    (∀ token, req.accessToken = some token → token ≠ "" →
      env.jwtVerify token = none →
      (cameraPOST env req).response.status = 500 ∧
      (cameraPOST env req).response.message = some "Error adding camera") := by
  constructor
  · intro h
    simp [cameraPOST, h]
  · intro token htok hne hver
    simp [cameraPOST, htok, if_neg hne, hver]

def cameraReqNoCookie : CameraRequest :=
  { accessToken := none,
    body := .obj [("name", .str "cam"), ("locationId", .num 1)] }

def cameraReqBadToken : CameraRequest :=
  { accessToken := some "bad",
    body := .obj [("name", .str "cam"), ("locationId", .num 1)] }

/-- Witness for C3: both auth-failure shapes, on concrete requests. -/
theorem camera_auth_errors_witness :
    ((cameraPOST cameraEnvW cameraReqNoCookie).response.status = 401 ∧
      (cameraPOST cameraEnvW cameraReqNoCookie).queries = []) ∧
    ((cameraPOST cameraEnvW cameraReqBadToken).response.status = 500 ∧
      (cameraPOST cameraEnvW cameraReqBadToken).response.message =
        some "Error adding camera") :=
  ⟨⟨((camera_auth_errors cameraEnvW cameraReqNoCookie).1 rfl).1,
    ((camera_auth_errors cameraEnvW cameraReqNoCookie).1 rfl).2.2⟩,
   (camera_auth_errors cameraEnvW cameraReqBadToken).2 "bad" rfl (by decide) rfl⟩

def cameraReqInvalidNoAuth : CameraRequest :=
  { accessToken := none, body := .obj [] }

/-- C4 counterexample: a POST /api/configs/camera request with no
`accessToken` cookie and a body failing the camera schema (empty object,
`name` missing) is answered 401 by the auth check, not 400: body validation
never runs for unauthenticated camera requests. -/
theorem camera_invalid_body_unauth_not_400 :
    cameraParse cameraEnvW.isValidUrl cameraReqInvalidNoAuth.body =
      .error "Required" ∧
    (cameraPOST cameraEnvW cameraReqInvalidNoAuth).response.status = 401 ∧
    ¬ (cameraPOST cameraEnvW cameraReqInvalidNoAuth).response.status = 400 := by
  refine ⟨rfl, rfl, ?_⟩
  intro h
  simp [cameraPOST, cameraReqInvalidNoAuth] at h

/-- C4 (amended): a schema-invalid login body always gets 400 with no SQL
executed; a schema-invalid camera body gets 400 with no SQL executed
provided the request passed authentication (a truthy `accessToken` cookie
that JWT-verifies) — otherwise the auth error (401/500) precedes
validation. -/
theorem validation_rejects_before_sql :
    (∀ (env : LoginEnv) (body : Json) (msg : String),
      loginParse env.isValidEmail body = .error msg →
      (loginPOST env body).response.status = 400 ∧
      (loginPOST env body).queries = []) ∧
    (∀ (env : CameraEnv) (req : CameraRequest) (token userId msg : String),
      req.accessToken = some token → token ≠ "" →
      env.jwtVerify token = some userId →
      cameraParse env.isValidUrl req.body = .error msg →
      (cameraPOST env req).response.status = 400 ∧
      (cameraPOST env req).queries = []) := by
  constructor
  · intro env body msg hparse
    simp [loginPOST, hparse]
  · intro env req token userId msg htok hne hver hparse
    simp [cameraPOST, htok, if_neg hne, hver, hparse]

def loginBodyShortPw : Json :=
  .obj [("email", .str "a@b.co"), ("password", .str "pw")]

def cameraReqInvalidAuthed : CameraRequest :=
  { accessToken := some "tok", body := .obj [("name", .str "cam")] }

/-- Witness for the amended C4: a five-character password fails the login
schema with a 400 and no query; an authenticated camera request missing
`locationId` fails the camera schema with a 400 and no query. -/
theorem validation_rejects_before_sql_witness :
    ((loginPOST loginEnvW loginBodyShortPw).response.status = 400 ∧
      (loginPOST loginEnvW loginBodyShortPw).queries = []) ∧
    ((cameraPOST cameraEnvW cameraReqInvalidAuthed).response.status = 400 ∧
      (cameraPOST cameraEnvW cameraReqInvalidAuthed).queries = []) :=
  ⟨validation_rejects_before_sql.1 loginEnvW loginBodyShortPw
      "String must contain at least 6 character(s)" rfl,
   validation_rejects_before_sql.2 cameraEnvW cameraReqInvalidAuthed
      "tok" "u1" "Required" rfl (by decide) rfl rfl⟩

/-- C5: the successful login signs the access token with expiresIn "15m" and
the refresh token with expiresIn "7d", and the cookies carry
maxAge 15 * 60 = 900 and 60 * 60 * 24 * 7 = 604800 respectively. -/
theorem login_token_lifetimes (env : LoginEnv) (body : Json)
    (email password : String) (u : UserRow) (rest : List UserRow)
    (hparse : loginParse env.isValidEmail body = .ok (email, password))
    (hrows : usersQueryRows env.db email = u :: rest)
    (hcmp : env.bcryptCompare password u.password = true) :
    (loginPOST env body).signCalls =
      [{ userId := u.id, secret := env.jwtAccessSecret, expiresIn := "15m" },
       { userId := u.id, secret := env.jwtRefreshSecret, expiresIn := "7d" }] ∧
    (loginPOST env body).cookies.map (fun c => (c.name, c.opts.maxAge)) =
      [("accessToken", 15 * 60), ("refreshToken", 60 * 60 * 24 * 7)] ∧
    (loginPOST env body).cookies.map (fun c => c.opts.maxAge) = [900, 604800] := by
  simp only [loginPOST, hparse, hrows, hcmp, if_true]
  refine ⟨trivial, rfl, ?_⟩
  simp

/-- Witness for C5: the concrete successful login. -/
theorem login_token_lifetimes_witness :
    usersQueryRows loginEnvW.db "a@b.co" = [userW] ∧
    (loginPOST loginEnvW loginBodyOk).cookies.map (fun c => c.opts.maxAge) =
      [900, 604800] :=
  ⟨rfl,
    (login_token_lifetimes loginEnvW loginBodyOk "a@b.co" "secret1" userW []
      rfl rfl rfl).2.2⟩

/-- C6: the logout DELETE handler always answers 200 "Logout successful",
clears both cookies (empty value, maxAge -1), and runs no database query. -/
theorem logout_clears_cookies (isProd : Bool) :
    (sessionDELETE isProd).response.status = 200 ∧
    (sessionDELETE isProd).response.message = some "Logout successful" ∧
    (sessionDELETE isProd).cookies.map (fun c => (c.name, c.value, c.opts.maxAge)) =
      [("accessToken", "", (-1 : Int)), ("refreshToken", "", (-1 : Int))] ∧
    (sessionDELETE isProd).queries = [] :=
  ⟨rfl, rfl, rfl, rfl⟩

/-- C7: every Set-Cookie serialization produced by the login POST handler
(for any environment and body) and by the logout DELETE handler carries
httpOnly true, sameSite "strict" and path "/". -/
theorem session_cookies_attrs (env : LoginEnv) (body : Json) (isProd : Bool) :
    (loginPOST env body).cookies.all hasSessionCookieAttrs = true ∧
    (sessionDELETE isProd).cookies.all hasSessionCookieAttrs = true := by
  constructor
  · unfold loginPOST
    cases hp : loginParse env.isValidEmail body with
    | error msg => rfl
    | ok ep =>
      obtain ⟨email, password⟩ := ep
      cases hr : usersQueryRows env.db email with
      | nil => simp [hr]
      | cons u rest =>
        cases hc : env.bcryptCompare password u.password with
        | false => simp [hr, hc]
        | true => simp [hr, hc, hasSessionCookieAttrs]
  · rfl

/-- C8: the `db.query` shim forwards the query text and parameter list
unchanged to the pool's query function and returns its result, so it is
extensionally the spec's data-access shim over any pool. -/
theorem db_query_forwards {ρ : Type} (poolQuery : String → List ParamVal → ρ)
    (text : String) (params : List ParamVal) :
    dbQuery poolQuery text params = poolQuery text params ∧
    dbQuery poolQuery text params = specDataAccessShim poolQuery text params :=
  ⟨rfl, rfl⟩

/-- C9: an unknown-email login and a wrong-password login produce identical
responses — both 401 with body message "Invalid credentials" and no cookies
— so the response does not reveal whether the email exists. -/
theorem login_401_indistinguishable (env : LoginEnv) (b1 b2 : Json)
    (e1 p1 e2 p2 : String) (u : UserRow) (rest : List UserRow)
    (h1 : loginParse env.isValidEmail b1 = .ok (e1, p1))
    (h2 : loginParse env.isValidEmail b2 = .ok (e2, p2))
    (hr1 : usersQueryRows env.db e1 = [])
    (hr2 : usersQueryRows env.db e2 = u :: rest)
    (hc2 : env.bcryptCompare p2 u.password = false) :
    (loginPOST env b1).response = (loginPOST env b2).response ∧
    (loginPOST env b1).response.status = 401 ∧
    (loginPOST env b1).response.message = some "Invalid credentials" ∧
    (loginPOST env b1).cookies = (loginPOST env b2).cookies := by
  have hA : loginPOST env b1 =
      { response := { status := 401, message := some "Invalid credentials" },
        cookies := [], signCalls := [],
        queries := [{ text := usersSql, params := [.str e1] }] } := by
    simp only [loginPOST, h1, hr1]
  have hB : loginPOST env b2 =
      { response := { status := 401, message := some "Invalid credentials" },
        cookies := [], signCalls := [],
        queries := [{ text := usersSql, params := [.str e2] }] } := by
    simp only [loginPOST, h2, hr2, hc2, Bool.false_eq_true, if_false]
  rw [hA, hB]
  exact ⟨rfl, rfl, rfl, rfl⟩

/-- Witness for C9: unknown email "x@b.co" versus wrong password for
"a@b.co", on the concrete store. -/
theorem login_401_indistinguishable_witness :
    usersQueryRows loginEnvW.db "x@b.co" = [] ∧
    loginEnvW.bcryptCompare "wrongpw" "hash1" = false ∧
    (loginPOST loginEnvW loginBodyNoUser).response =
      (loginPOST loginEnvW loginBodyBadPw).response :=
  ⟨rfl, rfl,
    (login_401_indistinguishable loginEnvW loginBodyNoUser loginBodyBadPw
      "x@b.co" "secret1" "a@b.co" "wrongpw" userW [] rfl rfl rfl rfl rfl).1⟩

/-- C10: when the camera INSERT runs, its `stream_url` parameter is
`streamUrlParam streamUrl`, which is NULL exactly when `streamUrl` was
absent or the empty string, and the unchanged string otherwise. -/
theorem camera_streamurl_null_param (env : CameraEnv) (req : CameraRequest)
    (token userId : String) (d : CameraData) (r : Int) (rs : List Int)
    (htok : req.accessToken = some token) (hne : token ≠ "")
    (hver : env.jwtVerify token = some userId)
    (hparse : cameraParse env.isValidUrl req.body = .ok d)
    (hrows : locationCheckRows env.db d.locationId userId = r :: rs) :
    (cameraPOST env req).queries =
      [{ text := locationCheckSql, params := [.int d.locationId, .str userId] },
       { text := insertCameraSql,
         params := [.str d.name, streamUrlParam d.streamUrl, .int d.locationId] }] ∧
    (d.streamUrl = none ∨ d.streamUrl = some "" → streamUrlParam d.streamUrl = .null) ∧
    (∀ s, d.streamUrl = some s → s ≠ "" → streamUrlParam d.streamUrl = .str s) := by
  refine ⟨?_, ?_, ?_⟩
  · simp only [cameraPOST, htok, if_neg hne, hver, hparse, hrows]
  · rintro (h | h) <;> simp [h, streamUrlParam]
  · intro s hs hns
    simp [hs, streamUrlParam, hns]

def cameraReqInsertW : CameraRequest :=
  { accessToken := some "tok",
    body := .obj [("name", .str "cam"), ("locationId", .num 1)] }

/-- Witness for C10: on the concrete store, location 1 belongs to user u1's
factory, and the INSERT receives NULL for the absent `streamUrl`. -/
theorem camera_streamurl_null_param_witness :
    locationCheckRows cameraEnvW.db 1 "u1" = [1] ∧
    (cameraPOST cameraEnvW cameraReqInsertW).queries =
      [{ text := locationCheckSql, params := [.int 1, .str "u1"] },
       { text := insertCameraSql, params := [.str "cam", .null, .int 1] }] :=
  ⟨rfl,
    (camera_streamurl_null_param cameraEnvW cameraReqInsertW "tok" "u1"
      { name := "cam", streamUrl := none, locationId := 1 } 1 []
      rfl (by decide) rfl rfl rfl).1⟩
